import Mathlib

/-!
Verification of the PatchCL semi-supervised segmentation training pipeline
(`main-flod.py`).  Python floats are embedded as rationals (`ℚ`), Python
integer floor division as `Nat` division, fallible Python operations
(division that can raise `ZeroDivisionError`, name resolution that can raise
`NameError`) as `Except String`-valued functions.
-/

namespace PatchCL

/-- Embedding of `get_dynamic_weight(epoch, end_epochs)` (main-flod.py,
lines 90-102).  `interval = 10`, `start_weight = 0.1`, `max_weight = 1.0`,
`num_intervals = end_epochs // interval`,
`weight_increment = (max_weight - start_weight) / num_intervals`.
Rational division stands for Python float division; the two agree whenever
`num_intervals ≠ 0` (Python raises `ZeroDivisionError` when
`end_epochs < 10`; every call site of the pipeline uses `end_epochs = 100`). -/
def get_dynamic_weight (epoch end_epochs : ℕ) : ℚ :=
  let interval : ℕ := 10
  let start_weight : ℚ := 1/10
  let max_weight : ℚ := 1
  let num_intervals : ℕ := end_epochs / interval
  let weight_increment : ℚ := (max_weight - start_weight) / (num_intervals : ℚ)
  if epoch < interval then
    start_weight
  else
    start_weight + ((epoch / interval : ℕ) : ℚ) * weight_increment

/-- Embedding of the per-step contrastive-weight dispatch (main-flod.py,
lines 178-184): for stage `"supervised-Pretraining"` use the
`ContrastiveWeights` override unless it is `0.0`, in which case use
`get_dynamic_weight(c_epochs, end_epochs)`; any other stage name gets the
constant `0.5`. -/
def PatchCL_weight (step_name : String) (ContrastiveWeights : ℚ)
    (c_epochs end_epochs : ℕ) : ℚ :=
  if step_name = "supervised-Pretraining" then
    if ContrastiveWeights = 0 then get_dynamic_weight c_epochs end_epochs
    else ContrastiveWeights
  else (1 : ℚ)/2

/-- Embedding of the loss combination `loss = supervised_loss +
PatchCL_weight * PCGJCL_loss` (main-flod.py, line 186). -/
def step_loss (supervised_loss w PCGJCL_loss : ℚ) : ℚ :=
  supervised_loss + w * PCGJCL_loss

/-- Embedding of the per-parameter EMA teacher update
`param_teach.data.copy_(0.001 * param_stud + 0.999 * param_teach)`
(main-flod.py, line 200). -/
def ema_update (param_stud param_teach : ℚ) : ℚ :=
  (1/1000) * param_stud + (999/1000) * param_teach

/-- Iterating the EMA update `n` times with the student parameter held
constant at `s`, starting from teacher value `t`. -/
def ema_iter (s : ℚ) : ℕ → ℚ → ℚ
  | 0, t => t
  | n + 1, t => ema_iter s n (ema_update s t)

/-- C1: with `end_epochs = 100` the dynamic contrastive-weight schedule
returns `0.1` for every epoch `< 10` and `0.1 + (epoch // 10) * increment`
for every epoch `≥ 10`, where `increment = (1.0 - 0.1) / 10`; in particular
`weight 5 = 0.1`, `weight 15 = 0.1 + 1 * increment`, and
`weight 95 = 0.1 + 9 * increment`. -/
theorem C1_dynamic_weight_schedule :
    (∀ epoch, epoch < 10 → get_dynamic_weight epoch 100 = 1/10)
    ∧ (∀ epoch, 10 ≤ epoch →
        get_dynamic_weight epoch 100
          = 1/10 + ((epoch / 10 : ℕ) : ℚ) * ((1 - 1/10) / 10))
    ∧ get_dynamic_weight 5 100 = 1/10
    ∧ get_dynamic_weight 15 100 = 1/10 + 1 * ((1 - 1/10) / 10)
    ∧ get_dynamic_weight 95 100 = 1/10 + 9 * ((1 - 1/10) / 10) := by
  refine ⟨?_, ?_, ?_, ?_, ?_⟩
  · intro epoch h
    simp [get_dynamic_weight, h]
  · intro epoch h
    have h' : ¬ epoch < 10 := not_lt.mpr h
    simp [get_dynamic_weight, h']
  · norm_num [get_dynamic_weight]
  · norm_num [get_dynamic_weight]
  · norm_num [get_dynamic_weight]

/-- Witness for C1 at concrete epochs 7 and 42. -/
theorem C1_dynamic_weight_schedule_witness :
    get_dynamic_weight 7 100 = 1/10
    ∧ get_dynamic_weight 42 100 = 1/10 + 4 * ((1 - 1/10) / 10) := by
  constructor
  · exact C1_dynamic_weight_schedule.1 7 (by norm_num)
  · have h := C1_dynamic_weight_schedule.2.1 42 (by norm_num)
    norm_num at h ⊢
    exact h

/-- C2: the contrastive-loss weight in `total = supervised + weight *
contrastive` is chosen by stage name: for stage `"supervised-Pretraining"`
a nonzero `ContrastiveWeights` override is used as is, a zero override
selects the dynamic schedule at the current epoch, and every other stage
name gets the constant `0.5`. -/
theorem C2_weight_dispatch (cw sup con : ℚ) (c_epochs end_epochs : ℕ)
    (sname : String) :
    (cw ≠ 0 →
      PatchCL_weight "supervised-Pretraining" cw c_epochs end_epochs = cw)
    ∧ (cw = 0 →
      PatchCL_weight "supervised-Pretraining" cw c_epochs end_epochs
        = get_dynamic_weight c_epochs end_epochs)
    ∧ (sname ≠ "supervised-Pretraining" →
      PatchCL_weight sname cw c_epochs end_epochs = 1/2)
    ∧ step_loss sup (PatchCL_weight sname cw c_epochs end_epochs) con
        = sup + PatchCL_weight sname cw c_epochs end_epochs * con := by
  refine ⟨?_, ?_, ?_, rfl⟩
  · intro h
    simp [PatchCL_weight, h]
  · intro h
    simp [PatchCL_weight, h]
  · intro h
    simp [PatchCL_weight, h]

/-- Witness for C2: a nonzero override of `0.3` is used as is during
pretraining; a zero override selects the schedule; stage
`"SSL-reliable-st1"` gets `0.5`. -/
theorem C2_weight_dispatch_witness :
    PatchCL_weight "supervised-Pretraining" (3/10) 5 100 = 3/10
    ∧ PatchCL_weight "supervised-Pretraining" 0 5 100
        = get_dynamic_weight 5 100
    ∧ PatchCL_weight "SSL-reliable-st1" (3/10) 5 100 = 1/2 := by
  refine ⟨?_, ?_, ?_⟩
  · exact (C2_weight_dispatch (3/10) 0 0 5 100 "x").1 (by norm_num)
  · exact (C2_weight_dispatch 0 0 0 5 100 "x").2.1 rfl
  · exact (C2_weight_dispatch (3/10) 0 0 5 100 "SSL-reliable-st1").2.2.1
      (by decide)

/-- C3: one EMA step replaces the teacher value `t` by
`0.001 * s + 0.999 * t`; the distance to the (held-constant) student value
`s` shrinks by the factor `0.999` at each step, so `n` iterations leave a
distance of `0.999 ^ n` times the initial one. -/
theorem C3_ema_convergence (s t : ℚ) :
    ema_update s t = (1/1000) * s + (999/1000) * t
    ∧ |ema_update s t - s| = (999/1000) * |t - s|
    ∧ ∀ n, |ema_iter s n t - s| = (999/1000) ^ n * |t - s| := by
  have key : ∀ (t' : ℚ), ema_update s t' - s = (999/1000) * (t' - s) := by
    intro t'
    unfold ema_update
    ring
  have habs : ∀ (t' : ℚ), |ema_update s t' - s| = (999/1000) * |t' - s| := by
    intro t'
    rw [key t', abs_mul, abs_of_pos (by norm_num : (0:ℚ) < 999/1000)]
  refine ⟨rfl, habs t, ?_⟩
  intro n
  induction n generalizing t with
  | zero => simp [ema_iter]
  | succ n ih =>
    have : ema_iter s (n + 1) t = ema_iter s n (ema_update s t) := rfl
    rw [this, ih (ema_update s t), habs t]
    ring

/-- The ways main-flod.py writes to the teacher model's parameters:
`initStateDictCopy` is `teacher_model.load_state_dict(model.state_dict())`
(line 288), `emaStep` is the per-parameter EMA assignment after an optimizer
step (lines 199-200), and `checkpointLoad` is
`teacher_model = torch.load(teacher_model_path)` inside
`load_pretrained_model` (line 247). -/
inductive TeacherWrite
  | initStateDictCopy
  | emaStep
  | checkpointLoad
deriving DecidableEq

/-- Which model's parameters an optimizer is constructed over. -/
inductive ParamSource
  | studentParams
  | teacherParams
deriving DecidableEq

/-- `torch.optim.Adam(model.parameters(), lr=0.001, weight_decay=1e-5)`
(main-flod.py, line 296) is built over the student's parameters. -/
def optimizer_pretrain_source : ParamSource := ParamSource.studentParams

/-- `torch.optim.SGD(model.parameters(), lr=0.007, weight_decay=1e-5)`
(main-flod.py, line 297) is built over the student's parameters. -/
def optimizer_ssl_source : ParamSource := ParamSource.studentParams

/-- `for param in teacher_model.parameters(): param.requires_grad = False`
(main-flod.py, lines 285-286). -/
def teacher_requires_grad : Bool := false

/-- Teacher-parameter writes performed by one `train(...)` call with
`num_opt_steps` optimizer steps: exactly one EMA assignment after each
optimizer step (main-flod.py, lines 197-200). -/
def train_teacher_writes (num_opt_steps : ℕ) : List TeacherWrite :=
  List.replicate num_opt_steps TeacherWrite.emaStep

/-- Teacher-parameter writes of one fold iteration of `main` (main-flod.py,
lines 311-424): stage-1 training, `load_pretrained_model` before stage 4,
stage-4 training, `load_pretrained_model` before stage 6, stage-6 training.
`s1 s2 s3` are the optimizer-step counts of the three training stages. -/
def fold_teacher_writes (s1 s2 s3 : ℕ) : List TeacherWrite :=
  train_teacher_writes s1 ++ [TeacherWrite.checkpointLoad]
    ++ train_teacher_writes s2 ++ [TeacherWrite.checkpointLoad]
    ++ train_teacher_writes s3

/-- Teacher-parameter writes of the whole `main` pipeline (main-flod.py,
lines 262-426): the initial state-dict copy from the student (line 288)
followed by the per-fold writes. -/
def main_teacher_writes (num_folds s1 s2 s3 : ℕ) : List TeacherWrite :=
  [TeacherWrite.initStateDictCopy]
    ++ (List.range num_folds).flatMap (fun _ => fold_teacher_writes s1 s2 s3)

/-- C4 counterexample: it is not the case that every teacher-parameter
write of the pipeline is the EMA assignment — already a run with one fold
and one optimizer step per stage performs checkpoint loads and the initial
state-dict copy. -/
theorem C4_counterexample :
    ¬ ∀ w ∈ main_teacher_writes 1 1 1 1, w = TeacherWrite.emaStep := by
  decide

/-- C4 amended: every optimizer is constructed over the student's
parameters only and teacher parameters have `requires_grad = False`; inside
the training loops the teacher changes only through the per-step EMA
assignment (one write per optimizer step), but across the whole pipeline
the teacher is additionally initialized by copying the student's state
dict and is replaced by a checkpoint load exactly twice per fold (in
`load_pretrained_model` before stages 4 and 6). -/
theorem C4_teacher_updates (nf s1 s2 s3 : ℕ) :
    optimizer_pretrain_source = ParamSource.studentParams
    ∧ optimizer_ssl_source = ParamSource.studentParams
    ∧ teacher_requires_grad = false
    ∧ (∀ n, ∀ w ∈ train_teacher_writes n, w = TeacherWrite.emaStep)
    ∧ (∀ n, (train_teacher_writes n).length = n)
    ∧ (main_teacher_writes nf s1 s2 s3).count TeacherWrite.checkpointLoad
        = 2 * nf
    ∧ (main_teacher_writes nf s1 s2 s3).count TeacherWrite.initStateDictCopy
        = 1 := by
  refine ⟨rfl, rfl, rfl, ?_, ?_, ?_, ?_⟩
  · intro n w hw
    exact List.eq_of_mem_replicate hw
  · intro n
    simp [train_teacher_writes]
  · have hfold : (fold_teacher_writes s1 s2 s3).count
        TeacherWrite.checkpointLoad = 2 := by
      simp [fold_teacher_writes, train_teacher_writes, List.count_append,
        List.count_replicate]
    induction nf with
    | zero => simp [main_teacher_writes]
    | succ k ih =>
      have hsplit : main_teacher_writes (k + 1) s1 s2 s3
          = main_teacher_writes k s1 s2 s3 ++ fold_teacher_writes s1 s2 s3 := by
        simp [main_teacher_writes, List.range_succ]
      rw [hsplit, List.count_append, ih, hfold]
      ring
  · have hfold : (fold_teacher_writes s1 s2 s3).count
        TeacherWrite.initStateDictCopy = 0 := by
      simp [fold_teacher_writes, train_teacher_writes, List.count_append,
        List.count_replicate]
    induction nf with
    | zero => simp [main_teacher_writes]
    | succ k ih =>
      have hsplit : main_teacher_writes (k + 1) s1 s2 s3
          = main_teacher_writes k s1 s2 s3 ++ fold_teacher_writes s1 s2 s3 := by
        simp [main_teacher_writes, List.range_succ]
      rw [hsplit, List.count_append, ih, hfold]

/-- Witness for C4 amended at one fold with one optimizer step per stage:
the first EMA write is indeed an EMA step, and the checkpoint-load count of
that run is 2. -/
theorem C4_teacher_updates_witness :
    TeacherWrite.emaStep = TeacherWrite.emaStep
    ∧ (main_teacher_writes 1 1 1 1).count TeacherWrite.checkpointLoad
        = 2 * 1 :=
  ⟨(C4_teacher_updates 1 1 1 1).2.2.2.1 1 TeacherWrite.emaStep
      (by simp [train_teacher_writes]),
   (C4_teacher_updates 1 1 1 1).2.2.2.2.2.1⟩

/-- The `contrast` mode flags of the student model (`model.module.contrast`)
and the teacher model (`teacher_model.module.contrast`). -/
structure ContrastFlags where
  student_contrast : Bool
  teacher_contrast : Bool
deriving DecidableEq

/-- The contrast-flag writes of one training-step body up to the supervised
forward pass `out = model(imgs)` (main-flod.py, lines 139-168):
`model.module.contrast = True` (line 155),
`teacher_model.module.contrast = True` (line 159),
`model.module.contrast = False` (line 167). -/
def flags_at_supervised_forward (f0 : ContrastFlags) : ContrastFlags :=
  let f1 : ContrastFlags := { f0 with student_contrast := true }
  let f2 : ContrastFlags := { f1 with teacher_contrast := true }
  { f2 with student_contrast := false }

/-- Contrast-flag state at the end of one training-step body (main-flod.py,
lines 139-202): no contrast-flag write occurs between line 167 and the end
of the step, so the final state equals the state at the supervised forward
pass. -/
def train_step_flags (f0 : ContrastFlags) : ContrastFlags :=
  flags_at_supervised_forward f0

/-- C9 counterexample: starting a step with both models in supervised mode,
the step ends with the teacher's `contrast` flag still `True` — the teacher
is never restored to supervised mode inside the step. -/
theorem C9_counterexample :
    train_step_flags ⟨false, false⟩ ≠ ⟨false, false⟩
    ∧ (train_step_flags ⟨false, false⟩).teacher_contrast = true := by
  decide

/-- C9 amended: in every training step the student's `contrast` flag is
restored to `False` before the supervised forward pass and hence before the
step completes, but the teacher's `contrast` flag is set to `True` and left
`True` at the end of the step, whatever the flags were on entry. -/
theorem C9_contrast_flags (f : ContrastFlags) :
    (flags_at_supervised_forward f).student_contrast = false
    ∧ (train_step_flags f).student_contrast = false
    ∧ (train_step_flags f).teacher_contrast = true := by
  refine ⟨rfl, rfl, rfl⟩

/-- Modelled from the spec: `select_reliable` is imported from
`utils.select_reliable` in main-flod.py (line 30) but its source file is
not part of the repository.  Per spec section 4.6 it scores every unlabeled
sample by model/teacher agreement and splits the input into a "reliable"
subset and a "remaining" subset.  The scoring is abstracted into the
boolean `is_reliable`; the split is the partition of the input list by that
predicate. -/
def select_reliable {α : Type} ( is_reliable : α → Bool) (xs : List α) :
    List α × List α :=
  xs.partition is_reliable

/-- C5: the reliable-sample selection splits an unlabeled input set of size
`N` into a reliable set of size `R` and a remaining set of size `N - R`
whose union by sample identity is the whole input, with no sample in both
sets and no sample lost. -/
theorem C5_reliable_partition {α : Type} (p : α → Bool) (xs : List α) :
    (select_reliable p xs).1.length + (select_reliable p xs).2.length
        = xs.length
    ∧ (∀ x, x ∈ xs ↔
        x ∈ (select_reliable p xs).1 ∨ x ∈ (select_reliable p xs).2)
    ∧ (∀ x, ¬(x ∈ (select_reliable p xs).1
        ∧ x ∈ (select_reliable p xs).2)) := by
  refine ⟨?_, ?_, ?_⟩
  · simp [select_reliable, List.partition_eq_filter_filter]
    induction xs with
    | nil => simp
    | cons a l ih =>
      by_cases ha : p a <;> simp [List.filter_cons, ha, ← ih] <;> omega
  · intro x
    simp only [select_reliable, List.partition_eq_filter_filter,
      List.mem_filter, Function.comp, Bool.not_eq_true']
    by_cases hx : p x <;> simp [hx]
  · intro x
    simp only [select_reliable, List.partition_eq_filter_filter,
      List.mem_filter, Function.comp, Bool.not_eq_true']
    rintro ⟨⟨-, h1⟩, -, h2⟩
    rw [h1] at h2
    cases h2

/-- Witness for C5 on the concrete list `[0, 1, 2, 3]` split by evenness. -/
theorem C5_reliable_partition_witness :
    (select_reliable (fun n => decide (n % 2 = 0)) [0, 1, 2, 3]).1.length
      + (select_reliable (fun n => decide (n % 2 = 0)) [0, 1, 2, 3]).2.length
      = 4 :=
  (C5_reliable_partition (fun n => decide (n % 2 = 0)) [0, 1, 2, 3]).1

/-- The observable actions of the tail of one fold iteration of `main`
(main-flod.py, lines 382-424), after SSL stage 1. -/
inductive FoldAction
  | warnRemainingSmall
  | loadPretrained
  | generatePseudoLabels
  | warnFewBatches
  | returnEarly
  | runSSLStage2
deriving DecidableEq

/-- Embedding of main-flod.py, lines 382-424, for a remaining dataset of
size `n` and batch size `b`.  `if len(remaining_dataset) < batch_size`
only prints a warning (lines 384-385); `load_pretrained_model` and the
pseudo-label generation (lines 387-392) run unconditionally.  The
pseudo-labeled loader is built with `drop_last=True` from the samples the
(likewise `drop_last=True`) remaining loader yields, so its length is
`n / b` batches; `if len(remaining_label_loader) < 2` prints and executes
`return`, leaving `main` (lines 395-397); otherwise SSL stage 2 runs
(lines 399-424). -/
def fold_tail (n b : ℕ) : List FoldAction :=
  (if n < b then [FoldAction.warnRemainingSmall] else [])
    ++ [FoldAction.loadPretrained, FoldAction.generatePseudoLabels]
    ++ (if n / b < 2 then [FoldAction.warnFewBatches, FoldAction.returnEarly]
        else [FoldAction.runSSLStage2])

/-- C6 counterexample: with a remaining dataset of 3 samples and batch size
16 (so remaining is smaller than one batch), pseudo-label generation is
still executed — the downstream stage is not skipped, only a warning is
printed before it runs. -/
theorem C6_counterexample :
    3 < 16
    ∧ FoldAction.generatePseudoLabels ∈ fold_tail 3 16
    ∧ FoldAction.loadPretrained ∈ fold_tail 3 16 := by
  decide

/-- C6 amended: when the remaining dataset is smaller than one batch a
warning is logged but pseudo-label generation still executes; the
SSL-stage-2 guard is separate: whenever the pseudo-labeled remaining loader
holds fewer than two batches the orchestrator logs a message and returns
without completing the remaining folds (skipping SSL stage 2), and
otherwise SSL stage 2 runs with no early return.  No exception is raised in
either case. -/
theorem C6_insufficient_data (n b : ℕ) :
    (n < b → FoldAction.warnRemainingSmall ∈ fold_tail n b)
    ∧ (¬ n < b → FoldAction.warnRemainingSmall ∉ fold_tail n b)
    ∧ FoldAction.generatePseudoLabels ∈ fold_tail n b
    ∧ (n / b < 2 →
        FoldAction.returnEarly ∈ fold_tail n b
        ∧ FoldAction.runSSLStage2 ∉ fold_tail n b)
    ∧ (2 ≤ n / b →
        FoldAction.runSSLStage2 ∈ fold_tail n b
        ∧ FoldAction.returnEarly ∉ fold_tail n b) := by
  refine ⟨?_, ?_, ?_, ?_, ?_⟩
  · intro h
    simp [fold_tail, h]
  · intro h
    by_cases h2 : n / b < 2 <;> simp [fold_tail, h, h2]
  · by_cases h1 : n < b <;> by_cases h2 : n / b < 2 <;>
      simp [fold_tail, h1, h2]
  · intro h
    by_cases h1 : n < b <;> simp [fold_tail, h1, h]
  · intro h
    have h' : ¬ n / b < 2 := not_lt.mpr h
    by_cases h1 : n < b <;> simp [fold_tail, h1, h']

/-- Witness for C6 amended at `n = 3`, `b = 16`: the warning is logged and
the orchestrator returns early. -/
theorem C6_insufficient_data_witness :
    FoldAction.warnRemainingSmall ∈ fold_tail 3 16
    ∧ FoldAction.returnEarly ∈ fold_tail 3 16 :=
  ⟨(C6_insufficient_data 3 16).1 (by decide),
   ((C6_insufficient_data 3 16).2.2.2.1 (by decide)).1⟩

/-- The names bound in the enclosing scopes of main-flod.py, line 351
(`combined_dataset = ConcatDataset([train_dataset, reliable_dataset])`):
the locals of `main` assigned before that line (lines 263-348). -/
def main_local_scope : List String :=
  ["k_folds", "kfold", "args", "dataset_path", "output_dir", "patch_size",
   "embedding_size", "img_size", "batch_size", "num_classes",
   "ContrastiveWeights", "save_interval", "save_loss_path",
   "save_loss_model_path", "cross_entropy_loss", "model", "teacher_model",
   "param", "metrics", "optimizer_pretrain", "optimizer_ssl", "scheduler",
   "labeled_dataset", "unlabeled_dataset", "unlabeled_loader",
   "supervised_start_epoch", "supervised_end_epoch", "fold", "train_ids",
   "valid_ids", "train_subsampler", "valid_subsampler", "train_loader",
   "valid_loader", "save_model_path", "reliable_dataset",
   "remaining_dataset"]

/-- The module-level names of main-flod.py (imports, lines 1-30; globals,
lines 32-37; top-level function definitions). -/
def module_scope : List String :=
  ["os", "sys", "torch", "nn", "smp", "math", "time", "DataLoader",
   "random_split", "TensorDataset", "ConcatDataset", "SubsetRandomSampler",
   "np", "Image", "plt", "tqdm", "argparse", "transforms", "KFold",
   "Transform", "StochasticApprox", "Network", "PascalVOCDataset",
   "Embedding_Queues", "CE_loss", "_get_patches", "batch_augment",
   "get_embeddings", "simple_PCGJCL", "PolynomialLRDecay", "save_loss",
   "DiceCoefficient", "Accuracy", "MeanIOU", "select_reliable", "Label",
   "voc_mask_color_map", "dev", "parse_args", "reset_bn_stats", "validate",
   "get_dynamic_weight", "train", "load_pretrained_model", "to_one_hot",
   "main"]

/-- Python name resolution at main-flod.py, line 351: a name resolves if it
is a local of `main` or a module-level global; otherwise evaluating it
raises `NameError`. -/
def resolve_name (n : String) : Except String Unit :=
  if n ∈ main_local_scope ∨ n ∈ module_scope then Except.ok ()
  else Except.error ("NameError: name " ++ n ++ " is not defined")

/-- Embedding of the stage-3 statement
`combined_dataset = ConcatDataset([train_dataset, reliable_dataset])`
(main-flod.py, line 351): Python evaluates the names appearing in the
expression before the call can happen. -/
def stage3_concat : Except String Unit := do
  let _ ← resolve_name "ConcatDataset"
  let _ ← resolve_name "train_dataset"
  let _ ← resolve_name "reliable_dataset"
  Except.ok ()

/-- C7: stage 3 of every fold raises `NameError` — `train_dataset` is not
bound anywhere in main-flod.py when line 351 executes, so the dataset
merge never succeeds, contradicting the claim that the six stages run in
sequence without error. -/
theorem C7_stage3_name_error :
    stage3_concat
      = Except.error "NameError: name train_dataset is not defined" := by
  rfl

/-- The observable per-epoch outputs of `train` (main-flod.py): a CSV row
written by `save_loss` (lines 215-230) and, conditionally, a model
checkpoint written by `torch.save` (lines 232-235). -/
inductive TrainEvent
  | csvRow (epoch : ℕ)
  | checkpoint (path : String)
deriving DecidableEq

/-- Embedding of `save_loss_model_path = f'output/.../{patch_size}-
{ContrastiveWeights}'` (main-flod.py, line 278); the two interpolated
values are passed as already-formatted strings. -/
def save_loss_model_path (patch_size ContrastiveWeights : String) : String :=
  "output/" ++ patch_size ++ "-" ++ ContrastiveWeights

/-- Embedding of the checkpoint file path (main-flod.py, lines 233-235):
`f'{save_loss_model_path}/fold/{fold}'` followed by
`f'.../model_{step_name}_{c_epochs}-s.pth'`. -/
def checkpoint_path (p step_name : String) (fold c_epochs : ℕ) : String :=
  p ++ "/fold/" ++ toString fold ++ "/model_" ++ step_name ++ "_"
    ++ toString c_epochs ++ "-s.pth"

/-- Is the event a CSV row? -/
def is_csv_row : TrainEvent → Bool
  | TrainEvent.csvRow _ => true
  | _ => false

/-- Is the event a checkpoint save? -/
def is_checkpoint : TrainEvent → Bool
  | TrainEvent.checkpoint _ => true
  | _ => false

/-- Observable outputs of one epoch body of `train` (main-flod.py,
lines 128-235) for 1-based epoch number `c_epochs`: exactly one `save_loss`
CSV row, then a checkpoint exactly when `c_epochs % save_interval == 0`
(line 232). -/
def epoch_events (p step_name : String) (fold save_interval c_epochs : ℕ) :
    List TrainEvent :=
  [TrainEvent.csvRow c_epochs]
    ++ (if c_epochs % save_interval = 0 then
          [TrainEvent.checkpoint (checkpoint_path p step_name fold c_epochs)]
        else [])

/-- Observable outputs of one `train` call (main-flod.py, lines 128-235):
the loop `for c_epochs in range(start_epochs, end_epochs)` immediately
increments `c_epochs += 1`, so the epoch numbers visited are
`start_epochs + 1, ..., end_epochs`. -/
def train_events (p step_name : String)
    (fold save_interval start_epochs end_epochs : ℕ) : List TrainEvent :=
  (List.range' (start_epochs + 1) (end_epochs - start_epochs)).flatMap
    (epoch_events p step_name fold save_interval)

/-- One CSV row is produced per visited epoch, whatever the epochs are. -/
theorem csv_rows_per_epoch (p step_name : String) (fold save_interval : ℕ)
    (es : List ℕ) :
    ((es.flatMap (epoch_events p step_name fold save_interval)).countP
      is_csv_row) = es.length := by
  induction es with
  | nil => rfl
  | cons e rest ih =>
    rw [List.flatMap_cons, List.countP_append, ih]
    by_cases h : e % save_interval = 0 <;>
      simp [epoch_events, h, is_csv_row, List.countP_cons] <;> omega

/-- C8: one `train` call logs exactly one CSV row per completed epoch and
saves a checkpoint exactly on epoch numbers divisible by `save_interval`,
at path `<output_root>/<patch_size>-<contrastive_weight>/fold/<fold>/
model_<stage_name>_<epoch>-s.pth`; a 2-epoch run with `save_interval = 2`
yields exactly 2 CSV rows and exactly 1 checkpoint. -/
theorem C8_logging_and_checkpoints (ps cw sn : String)
    (fold save_interval start_epochs end_epochs : ℕ)
    (hsi : 0 < save_interval) :
    ((train_events (save_loss_model_path ps cw) sn fold save_interval
        start_epochs end_epochs).countP is_csv_row)
      = end_epochs - start_epochs
    ∧ (∀ e, TrainEvent.checkpoint
          (checkpoint_path (save_loss_model_path ps cw) sn fold e)
          ∈ epoch_events (save_loss_model_path ps cw) sn fold save_interval e
        ↔ e % save_interval = 0)
    ∧ ((train_events (save_loss_model_path ps cw) sn fold 2 0 2).countP
        is_csv_row) = 2
    ∧ ((train_events (save_loss_model_path ps cw) sn fold 2 0 2).countP
        is_checkpoint) = 1 := by
  refine ⟨?_, ?_, ?_, ?_⟩
  · rw [train_events, csv_rows_per_epoch]
    simp
  · intro e
    by_cases h : e % save_interval = 0 <;> simp [epoch_events, h]
  · rw [train_events, csv_rows_per_epoch]
    simp
  · have : List.range' (0 + 1) (2 - 0) = [1, 2] := rfl
    rw [train_events, this]
    simp [epoch_events, is_checkpoint, List.countP_cons, List.countP_append]

/-- Witness for C8 at `save_interval = 2`, stage `supervised-Pretraining`,
fold 0, epochs 0 to 2: two rows, one checkpoint. -/
theorem C8_logging_and_checkpoints_witness :
    ((train_events (save_loss_model_path "14" "0.0") "supervised-Pretraining"
        0 2 0 2).countP is_csv_row) = 2
    ∧ ((train_events (save_loss_model_path "14" "0.0")
        "supervised-Pretraining" 0 2 0 2).countP is_checkpoint) = 1 :=
  ⟨(C8_logging_and_checkpoints "14" "0.0" "supervised-Pretraining" 0 2 0 2
      (by norm_num)).2.2.1,
   (C8_logging_and_checkpoints "14" "0.0" "supervised-Pretraining" 0 2 0 2
      (by norm_num)).2.2.2⟩

/-- Python float division: raises `ZeroDivisionError` when the divisor is
zero, otherwise returns the exact quotient (floats embedded as rationals). -/
def pyDiv (x y : ℚ) : Except String ℚ :=
  if y = 0 then Except.error "ZeroDivisionError" else Except.ok (x / y)

/-- Number of batches a `DataLoader` with `drop_last=True` yields over a
dataset of `dataset_len` samples at batch size `batch_size`
(`len(loader)` in main-flod.py, lines 204-206, 305, 317-318, 389, 392). -/
def loader_len (dataset_len batch_size : ℕ) : ℕ := dataset_len / batch_size

/-- The `(size, loss)` pairs of the batches such a loader yields: each of
the `loader_len` batches has exactly `batch_size` samples; the per-batch
criterion value is abstracted as `loss i`. -/
def loader_batches (dataset_len batch_size : ℕ) (loss : ℕ → ℚ) :
    List (ℕ × ℚ) :=
  (List.range (loader_len dataset_len batch_size)).map
    (fun i => (batch_size, loss i))

/-- Embedding of `validate` (main-flod.py, lines 59-88): accumulate
`loss.item() * imgs.size(0)` and `imgs.size(0)` over the yielded batches,
then `val_loss /= total_samples` with no guard against zero. -/
def validate_loss (batches : List (ℕ × ℚ)) : Except String ℚ :=
  let val_loss : ℚ := batches.foldl (fun acc b => acc + b.2 * (b.1 : ℚ)) 0
  let total_samples : ℕ := batches.foldl (fun acc b => acc + b.1) 0
  pyDiv val_loss (total_samples : ℚ)

/-- Embedding of the per-epoch training averages (main-flod.py,
lines 204-206): three divisions by `len(train_loader)` with no guard. -/
def epoch_averages (epoch_t_loss total_sup total_con : ℚ)
    (num_train_batches : ℕ) : Except String (ℚ × ℚ × ℚ) := do
  let a ← pyDiv epoch_t_loss (num_train_batches : ℚ)
  let b ← pyDiv total_sup (num_train_batches : ℚ)
  let c ← pyDiv total_con (num_train_batches : ℚ)
  return (a, b, c)

/-- C10: a validation loader built with `drop_last=True` over a subset
smaller than one batch yields no batches, and `validate` then raises
`ZeroDivisionError` at `val_loss /= total_samples` instead of returning;
the per-epoch training averages likewise raise when the training loader
holds zero batches. -/
theorem C10_division_by_zero (val_len train_len b : ℕ) (loss : ℕ → ℚ)
    (etl tsl tcl : ℚ) (hb : 0 < b) (hv : val_len < b) (ht : train_len < b) :
    loader_len val_len b = 0
    ∧ validate_loss (loader_batches val_len b loss)
        = Except.error "ZeroDivisionError"
    ∧ loader_len train_len b = 0
    ∧ epoch_averages etl tsl tcl (loader_len train_len b)
        = Except.error "ZeroDivisionError" := by
  have h1 : loader_len val_len b = 0 := Nat.div_eq_of_lt hv
  have h2 : loader_len train_len b = 0 := Nat.div_eq_of_lt ht
  refine ⟨h1, ?_, h2, ?_⟩
  · rw [loader_batches, h1]
    simp [validate_loss, pyDiv]
  · rw [h2]
    simp only [epoch_averages, pyDiv, Nat.cast_zero, if_pos rfl]
    rfl

/-- Witness for C10: validation subset of 3 samples, training subset of 3
samples, batch size 16. -/
theorem C10_division_by_zero_witness :
    validate_loss (loader_batches 3 16 (fun _ => 0))
        = Except.error "ZeroDivisionError"
    ∧ epoch_averages 0 0 0 (loader_len 3 16)
        = Except.error "ZeroDivisionError" :=
  ⟨(C10_division_by_zero 3 3 16 (fun _ => 0) 0 0 0 (by norm_num)
      (by norm_num) (by norm_num)).2.1,
   (C10_division_by_zero 3 3 16 (fun _ => 0) 0 0 0 (by norm_num)
      (by norm_num) (by norm_num)).2.2.2⟩

end PatchCL
